import Mathlib

/-!
Shallow embedding of `src/ant-v.py` (Posner/ANT-R endogenous attention cueing
task), covering the trial sequencer: the per-trial phase timeline
(lines 168-213), the display helper (lines 135-154), the target selection and
positioning logic (lines 178-195), the bounded keyboard wait and reaction-time
adjustment (lines 201-203), the result-row assembly (lines 156-157 and 204)
and the feedback branch (lines 207-213).

Times are modelled as rationals (milliseconds).  `random.uniform(a, b)` is
modelled in exact arithmetic as `a + (b - a) * u` where `u` is the underlying
`random()` draw in `[0, 1)`.  `exp.keyboard.wait(duration=d)` (no key filter)
is modelled by an environment that supplies the first key-press event, if any,
as a key code and an elapsed time since the wait began: the wait returns that
key and time when the press happens before the deadline, and `(None, None)`
otherwise.  The two committed screen updates of a trial's target presentation
(the `display(...)` call at line 196 and `target.present(clear=False,
update=True)` at line 197) appear as two frames in the trace, the second
layering the target onto the first.
-/

namespace AntV

/-- Duration constants from lines 21-24 of the source (milliseconds). -/
def CUE_DISPLAY_DURATION : ℚ := 100

def CUE_TARGET_INTERVAL : ℚ := 400

def TARGET_DISPLAY_DURATION : ℚ := 200

def MAX_RESPONSE_DURATION : ℚ := 1700

/-- `misc.constants.K_f` (line 26): key code 102. -/
def LEFT_RESPONSE_KEY : Nat := 102

/-- `misc.constants.K_j` (line 28): key code 106. -/
def RIGHT_RESPONSE_KEY : Nat := 106

/-- Fixation-cross colours (the `fixation_crosses` dict, lines 95-97). -/
inductive Color where
  | neutral
  | positive
  | negative
  deriving DecidableEq

/-- The four preloaded arrow stimuli (lines 108-111). -/
inductive Target where
  | congLeft
  | congRight
  | incongLeft
  | incongRight
  deriving DecidableEq

/-- The two stimulus positions `(0, shift)` and `(0, -shift)` (lines 190-193). -/
inductive Pos where
  | up
  | down
  deriving DecidableEq

/-- One committed screen frame: fixation cross colour, whether the top and
bottom frames are cued (white) rather than plain (black), and an optional
target stimulus layered on top. -/
structure VisualState where
  cross : Color
  topCued : Bool
  bottomCued : Bool
  target : Option (Target × Pos)
  deriving DecidableEq

/-- The frame committed by one `display(cross_type, top_cued, bottom_cued)`
call (lines 135-154): cross plus the two boxes, no target. -/
def displayFrame (c : Color) (topCued bottomCued : Bool) : VisualState :=
  ⟨c, topCued, bottomCued, none⟩

/-- One row of the trial list (`trials.itertuples`): the five columns of the
trial CSV used by the sequencer. -/
structure TrialSpec where
  cue_up : Bool
  cue_down : Bool
  arrow_direction : String
  flanker_congruency : String
  target_position : String
  deriving DecidableEq

/-- One cell of a data row handed to `exp.data.add`. -/
inductive Cell where
  | boolCell : Bool → Cell
  | strCell : String → Cell
  | keyCell : Option Nat → Cell
  | rtCell : Option ℚ → Cell
  deriving DecidableEq

/-- `trials.columns`: the stable column order of the trial list. -/
def columns : List String :=
  ["cue_up", "cue_down", "arrow_direction", "flanker_congruency",
   "target_position"]

/-- `list(trial)` for a row of `trials.itertuples(index=False)`: the field
values in the column order of `columns`. -/
def listTrial (t : TrialSpec) : List Cell :=
  [.boolCell t.cue_up, .boolCell t.cue_down, .strCell t.arrow_direction,
   .strCell t.flanker_congruency, .strCell t.target_position]

/-- `exp.add_data_variable_names(list(trials.columns) + [...])`
(lines 156-157). -/
def dataVariableNames : List String :=
  columns ++ ["response_key", "reaction_time"]

/-- Observable actions of one trial, in execution order: a committed screen
frame, a timed `exp.clock.wait`, the issuing of `exp.keyboard.wait` with its
duration argument, and an `exp.data.add` of a data row. -/
inductive Event where
  | frame : VisualState → Event
  | wait : ℚ → Event
  | keyWait : ℚ → Event
  | dataAdd : List Cell → Event
  deriving DecidableEq

/-- The committed frames of a trace, in order. -/
def framesOf (es : List Event) : List VisualState :=
  es.filterMap fun e =>
    match e with
    | .frame v => some v
    | _ => none

/-- `random.uniform a b` in exact arithmetic, where `u` is the underlying
`random()` draw in `[0, 1)`. -/
def uniform (a b u : ℚ) : ℚ := a + (b - a) * u

/-- Per-trial environment: the fresh `random()` draw consumed by the baseline
jitter (line 170), and the first key press during the response wait, if any,
as `(key code, elapsed ms since the wait began)`. -/
structure Env where
  u : ℚ
  press : Option (Nat × ℚ)

/-- `exp.keyboard.wait(duration=d)` with no key filter (line 201): returns on
the first key press of ANY key before the deadline, giving that key and the
elapsed time; on timeout both components are `None`. -/
def keyboardWait (d : ℚ) (press : Option (Nat × ℚ)) :
    Option Nat × Option ℚ :=
  match press with
  | some (k, t) => if t < d then (some k, some t) else (none, none)
  | none => (none, none)

/-- The `key, rt` pair returned at line 201. -/
def responseOutcome (env : Env) : Option Nat × Option ℚ :=
  keyboardWait MAX_RESPONSE_DURATION env.press

/-- Lines 202-203: `if rt is not None: rt = rt + TARGET_DISPLAY_DURATION`. -/
def reportedRT (rt : Option ℚ) : Option ℚ :=
  match rt with
  | some t => some (t + TARGET_DISPLAY_DURATION)
  | none => none

/-- Target selection (lines 178-187): nested if/else on the two string
fields, with no validation of either value. -/
def selectTarget (dir cong : String) : Target :=
  if dir = "left" then
    if cong = "cong" then .congLeft else .incongLeft
  else
    if cong = "cong" then .congRight else .incongRight

/-- Target positioning (lines 190-193): two independent `if` statements with
no `else`; when neither matches, the Python variable `target_pos` keeps
whatever value a previous trial gave it, or is unbound on the first trial. -/
def selectTargetPos (tp : String) (prev : Option Pos) : Option Pos :=
  let p := if tp = "down" then some Pos.down else prev
  if tp = "up" then some Pos.up else p

/-- The direction each recognized response key is bound to (lines 26-29 and
the instructions): `K_f` means left, `K_j` means right. -/
def boundDir (k : Nat) : Option String :=
  if k = LEFT_RESPONSE_KEY then some "left"
  else if k = RIGHT_RESPONSE_KEY then some "right"
  else none

/-- The feedback branch (lines 207-211): green cross iff
`(key == K_f and direction == left) or (key == K_j and direction == right)`,
red cross otherwise. -/
def feedbackColor (key : Option Nat) (dir : String) : Color :=
  if (key = some LEFT_RESPONSE_KEY ∧ dir = "left") ∨
     (key = some RIGHT_RESPONSE_KEY ∧ dir = "right") then
    .positive
  else
    .negative

/-- Events of lines 169-175: baseline fixation with jittered wait, cue frame,
cue wait, gap frame, gap wait.  These run before the target position is
consulted. -/
def preEvents (trial : TrialSpec) (env : Env) : List Event :=
  [.frame (displayFrame .neutral false false),
   .wait (1500 + uniform 0 2000 env.u),
   .frame (displayFrame .neutral trial.cue_up trial.cue_down),
   .wait CUE_DISPLAY_DURATION,
   .frame (displayFrame .neutral false false),
   .wait CUE_TARGET_INTERVAL]

/-- The data row built at line 204: `list(trial) + [key, rt]`. -/
def resultRow (trial : TrialSpec) (env : Env) : List Cell :=
  listTrial trial ++
    [.keyCell (responseOutcome env).1,
     .rtCell (reportedRT (responseOutcome env).2)]

/-- Events of lines 196-213, once a target position is available: blank
fixation frame (line 196), the same frame with the target layered on
(line 197), target wait, post-target blank, the bounded keyboard wait, the
`exp.data.add` call, the feedback frame and the feedback wait. -/
def postEvents (trial : TrialSpec) (env : Env) (pos : Pos) : List Event :=
  [.frame (displayFrame .neutral false false),
   .frame ⟨.neutral, false, false,
           some (selectTarget trial.arrow_direction trial.flanker_congruency,
                 pos)⟩,
   .wait TARGET_DISPLAY_DURATION,
   .frame (displayFrame .neutral false false),
   .keyWait MAX_RESPONSE_DURATION,
   .dataAdd (resultRow trial env),
   .frame (displayFrame
             (feedbackColor (responseOutcome env).1 trial.arrow_direction)
             false false),
   .wait 400]

/-- One iteration of the trial loop (lines 168-213).  `prevPos` is the value
the Python variable `target_pos` holds from earlier trials (`none` before the
first trial that set it).  Returns the trace of observable events and either
the persisted data row together with the updated `target_pos`, or the
exception the iteration raises: when `target_position` is neither `"down"`
nor `"up"` and no earlier trial set `target_pos`, line 195 raises a
`NameError` after the baseline, cue and gap phases already ran. -/
def runTrial (trial : TrialSpec) (env : Env) (prevPos : Option Pos) :
    List Event × Except String (List Cell × Option Pos) :=
  match selectTargetPos trial.target_position prevPos with
  | none =>
      (preEvents trial env, .error "NameError: target_pos is not defined")
  | some pos =>
      (preEvents trial env ++ postEvents trial env pos,
       .ok (resultRow trial env, some pos))

/-- Whether a target stimulus points right (its central arrow points right). -/
def isRightTarget : Target → Bool
  | .congRight => true
  | .incongRight => true
  | _ => false

/-- Whether a target stimulus is one of the two incongruent variants. -/
def isIncongruentTarget : Target → Bool
  | .incongLeft => true
  | .incongRight => true
  | _ => false

/-- Specimen trial row used to instantiate the universally quantified
theorems: a neutral-cue, left, congruent, top-position trial. -/
def trialA : TrialSpec := ⟨false, false, "left", "cong", "up"⟩

/-- Specimen environment: the left response key pressed 300 ms into the
response wait. -/
def envPressA : Env := ⟨0, some (LEFT_RESPONSE_KEY, 300)⟩

/-- The successful branch of `runTrial`, characterised. -/
theorem runTrial_ok_iff (trial : TrialSpec) (env : Env) (prev : Option Pos)
    (row : List Cell) (p : Option Pos) :
    (runTrial trial env prev).2 = .ok (row, p) ↔
      ∃ pos, selectTargetPos trial.target_position prev = some pos ∧
        row = resultRow trial env ∧ p = some pos := by
  cases h : selectTargetPos trial.target_position prev <;>
    simp [runTrial, h, eq_comm]

/-- The trace of a trial whose target position resolves. -/
theorem runTrial_trace (trial : TrialSpec) (env : Env) (prev : Option Pos)
    (pos : Pos)
    (h : selectTargetPos trial.target_position prev = some pos) :
    (runTrial trial env prev).1 =
      preEvents trial env ++ postEvents trial env pos := by
  simp [runTrial, h]

/-- The trace of a trial whose target position does not resolve. -/
theorem runTrial_trace_err (trial : TrialSpec) (env : Env)
    (prev : Option Pos)
    (h : selectTargetPos trial.target_position prev = none) :
    (runTrial trial env prev).1 = preEvents trial env := by
  simp [runTrial, h]

/-- The feedback branch turns green exactly on a recognized key bound to the
trial's direction. -/
theorem feedbackColor_pos_iff (key : Option Nat) (dir : String) :
    feedbackColor key dir = .positive ↔
      ∃ k, key = some k ∧ boundDir k = some dir := by
  constructor
  · intro h
    by_cases hcond : (key = some LEFT_RESPONSE_KEY ∧ dir = "left") ∨
        (key = some RIGHT_RESPONSE_KEY ∧ dir = "right")
    · rcases hcond with ⟨hk, hd⟩ | ⟨hk, hd⟩
      · exact ⟨LEFT_RESPONSE_KEY, hk, by simp [boundDir, hd]⟩
      · refine ⟨RIGHT_RESPONSE_KEY, hk, ?_⟩
        simp [boundDir, hd, RIGHT_RESPONSE_KEY, LEFT_RESPONSE_KEY]
    · simp [feedbackColor, hcond] at h
  · rintro ⟨k, hk, hb⟩
    subst hk
    unfold boundDir LEFT_RESPONSE_KEY RIGHT_RESPONSE_KEY at hb
    unfold feedbackColor LEFT_RESPONSE_KEY RIGHT_RESPONSE_KEY
    by_cases h1 : k = 102
    · subst h1
      simp only [reduceIte] at hb
      obtain rfl : dir = "left" := by
        injection hb with hb2
        exact hb2.symm
      simp
    · by_cases h2 : k = 106
      · subst h2
        simp only [reduceIte] at hb
        obtain rfl : dir = "right" := by
          injection hb with hb2
          exact hb2.symm
        simp
      · simp [h1, h2] at hb

/-- The feedback branch has only two outcomes. -/
theorem feedbackColor_pos_or_neg (key : Option Nat) (dir : String) :
    feedbackColor key dir = .positive ∨
      feedbackColor key dir = .negative := by
  unfold feedbackColor
  split <;> simp

/-- C1: for every trial whose timeline completes, when the input wait captures
a key the reaction time written into the result row is the elapsed time the
wait measured plus `TARGET_DISPLAY_DURATION`; when the wait captures no key
before the deadline the recorded reaction time is `None`. -/
theorem c1_reaction_time_normalization (trial : TrialSpec) (env : Env)
    (prev : Option Pos) (row : List Cell) (p : Option Pos)
    (h : (runTrial trial env prev).2 = .ok (row, p)) :
    (∀ t : ℚ, (responseOutcome env).2 = some t →
        row.getLast? = some (.rtCell (some (t + TARGET_DISPLAY_DURATION)))) ∧
    ((responseOutcome env).2 = none →
        row.getLast? = some (.rtCell none)) := by
  obtain ⟨pos, hpos, hrow, hp⟩ := (runTrial_ok_iff _ _ _ _ _).1 h
  subst hrow
  constructor
  · intro t ht
    simp [resultRow, listTrial, reportedRT, ht]
  · intro ht
    simp [resultRow, listTrial, reportedRT, ht]

/-- C1 witness: the theorem applied to the specimen trial with a key press
300 ms into the wait. -/
theorem c1_reaction_time_normalization_witness :
    (∀ t : ℚ, (responseOutcome envPressA).2 = some t →
        (resultRow trialA envPressA).getLast? =
          some (.rtCell (some (t + TARGET_DISPLAY_DURATION)))) ∧
    ((responseOutcome envPressA).2 = none →
        (resultRow trialA envPressA).getLast? = some (.rtCell none)) :=
  c1_reaction_time_normalization trialA envPressA none
    (resultRow trialA envPressA) (some .up) rfl

/-- C6: for every trial whose timeline completes, the last rendered frame is
the feedback fixation cross, whose colour is positive exactly when a
recognized key bound to the trial's `arrow_direction` was pressed, and
negative both for a pressed key bound otherwise and for a timeout. -/
theorem c6_feedback_classification (trial : TrialSpec) (env : Env)
    (prev : Option Pos) (row : List Cell) (p : Option Pos)
    (h : (runTrial trial env prev).2 = .ok (row, p)) :
    (framesOf (runTrial trial env prev).1).getLast? =
      some (displayFrame
        (feedbackColor (responseOutcome env).1 trial.arrow_direction)
        false false) ∧
    (feedbackColor (responseOutcome env).1 trial.arrow_direction
        = .positive ↔
      ∃ k, (responseOutcome env).1 = some k ∧
        boundDir k = some trial.arrow_direction) ∧
    (∀ k, (responseOutcome env).1 = some k →
      boundDir k ≠ some trial.arrow_direction →
      feedbackColor (responseOutcome env).1 trial.arrow_direction
        = .negative) ∧
    ((responseOutcome env).1 = none →
      feedbackColor (responseOutcome env).1 trial.arrow_direction
        = .negative) := by
  obtain ⟨pos, hpos, hrow, hp⟩ := (runTrial_ok_iff _ _ _ _ _).1 h
  refine ⟨?_, feedbackColor_pos_iff _ _, ?_, ?_⟩
  · rw [runTrial_trace _ _ _ _ hpos]
    simp [framesOf, preEvents, postEvents]
  · intro k hk hb
    rcases feedbackColor_pos_or_neg (responseOutcome env).1
        trial.arrow_direction with hpo | hne
    · exfalso
      obtain ⟨k2, hk2, hb2⟩ := (feedbackColor_pos_iff _ _).1 hpo
      rw [hk] at hk2
      obtain rfl : k = k2 := by injection hk2
      exact hb hb2
    · exact hne
  · intro hk
    rcases feedbackColor_pos_or_neg (responseOutcome env).1
        trial.arrow_direction with hpo | hne
    · exfalso
      obtain ⟨k2, hk2, hb2⟩ := (feedbackColor_pos_iff _ _).1 hpo
      rw [hk] at hk2
      exact Option.noConfusion hk2
    · exact hne

/-- C6 witness: the theorem applied to the specimen trial with the left key
pressed. -/
theorem c6_feedback_classification_witness :
    (framesOf (runTrial trialA envPressA none).1).getLast? =
      some (displayFrame
        (feedbackColor (responseOutcome envPressA).1 trialA.arrow_direction)
        false false) ∧
    (feedbackColor (responseOutcome envPressA).1 trialA.arrow_direction
        = .positive ↔
      ∃ k, (responseOutcome envPressA).1 = some k ∧
        boundDir k = some trialA.arrow_direction) ∧
    (∀ k, (responseOutcome envPressA).1 = some k →
      boundDir k ≠ some trialA.arrow_direction →
      feedbackColor (responseOutcome envPressA).1 trialA.arrow_direction
        = .negative) ∧
    ((responseOutcome envPressA).1 = none →
      feedbackColor (responseOutcome envPressA).1 trialA.arrow_direction
        = .negative) :=
  c6_feedback_classification trialA envPressA none
    (resultRow trialA envPressA) (some .up) rfl

/-- C7: for every trial whose timeline completes, the persisted row is the
trial's five fields in their stable column order with `response_key` and
`reaction_time` appended, and the declared data variable names match that
layout. -/
theorem c7_record_passthrough (trial : TrialSpec) (env : Env)
    (prev : Option Pos) (row : List Cell) (p : Option Pos)
    (h : (runTrial trial env prev).2 = .ok (row, p)) :
    row = listTrial trial ++
      [.keyCell (responseOutcome env).1,
       .rtCell (reportedRT (responseOutcome env).2)] ∧
    dataVariableNames = columns ++ ["response_key", "reaction_time"] := by
  obtain ⟨pos, hpos, hrow, hp⟩ := (runTrial_ok_iff _ _ _ _ _).1 h
  exact ⟨hrow, rfl⟩

/-- C7 witness: the theorem applied to the specimen trial. -/
theorem c7_record_passthrough_witness :
    resultRow trialA envPressA = listTrial trialA ++
      [.keyCell (responseOutcome envPressA).1,
       .rtCell (reportedRT (responseOutcome envPressA).2)] ∧
    dataVariableNames = columns ++ ["response_key", "reaction_time"] :=
  c7_record_passthrough trialA envPressA none (resultRow trialA envPressA)
    (some .up) rfl

/-- C8: for every trial, the second event of the trace is the pre-cue
baseline wait of `1500 + uniform 0 2000 u` milliseconds, computed from the
trial's own fresh `random()` draw `u`, and for any draw in `[0, 1)` the
baseline lies in `[1500, 3500)`. -/
theorem c8_baseline_jitter (trial : TrialSpec) (env : Env)
    (prev : Option Pos) (h0 : 0 ≤ env.u) (h1 : env.u < 1) :
    (runTrial trial env prev).1[1]? =
      some (.wait (1500 + uniform 0 2000 env.u)) ∧
    1500 ≤ 1500 + uniform 0 2000 env.u ∧
    1500 + uniform 0 2000 env.u < 3500 := by
  refine ⟨?_, ?_, ?_⟩
  · cases h : selectTargetPos trial.target_position prev <;>
      simp [runTrial, h, preEvents]
  · simp only [uniform]
    nlinarith
  · simp only [uniform]
    nlinarith

/-- C8 witness: the theorem applied at the draw `u = 0`. -/
theorem c8_baseline_jitter_witness :
    (runTrial trialA ⟨0, none⟩ none).1[1]? =
      some (.wait (1500 + uniform 0 2000 (0 : ℚ))) ∧
    1500 ≤ 1500 + uniform 0 2000 (0 : ℚ) ∧
    1500 + uniform 0 2000 (0 : ℚ) < 3500 :=
  c8_baseline_jitter trialA ⟨0, none⟩ none (by decide) (by decide)

/-- C10: target stimulus selection is total over the two string fields, with
no validation: any `arrow_direction` other than `"left"` selects a
right-pointing stimulus, any `flanker_congruency` other than `"cong"`
selects an incongruent variant, and malformed values for both silently yield
the incongruent right stimulus. -/
theorem c10_target_selection_total (dir cong : String) :
    (dir ≠ "left" → isRightTarget (selectTarget dir cong) = true) ∧
    (cong ≠ "cong" → isIncongruentTarget (selectTarget dir cong) = true) ∧
    (dir ≠ "left" → cong ≠ "cong" →
      selectTarget dir cong = .incongRight) := by
  unfold selectTarget
  by_cases hd : dir = "left" <;> by_cases hc : cong = "cong" <;>
    simp [hd, hc, isRightTarget, isIncongruentTarget]

/-- C10 witness: two malformed field values select the incongruent right
stimulus without any error. -/
theorem c10_target_selection_total_witness :
    selectTarget "banana" "weird" = .incongRight :=
  (c10_target_selection_total "banana" "weird").2.2 (by decide) (by decide)

/-- Specimen environment for a late press: the left response key pressed
1600 ms into the response wait, i.e. 1800 ms after target onset. -/
def envLate : Env := ⟨0, some (LEFT_RESPONSE_KEY, 1600)⟩

/-- Specimen environment for an unrecognized key: key code 97 (the letter a)
pressed 500 ms into the response wait. -/
def envOdd : Env := ⟨0, some (97, 500)⟩

/-- Specimen trial with a malformed `target_position`. -/
def trialBadPos : TrialSpec := ⟨false, false, "left", "cong", "middle"⟩

/-- Specimen trial with a malformed `arrow_direction`. -/
def trialBadDir : TrialSpec := ⟨false, false, "sideways", "cong", "up"⟩

/-- C2 counterexample: the bounded input wait is issued with the full
`MAX_RESPONSE_DURATION`, not the remaining budget
`MAX_RESPONSE_DURATION - TARGET_DISPLAY_DURATION`, and a key press 1600 ms
into the wait — 1800 ms after target onset, beyond `MAX_RESPONSE_DURATION` —
is still accepted and recorded. -/
theorem c2_response_window_cex :
    (runTrial trialA envLate none).1[10]? =
      some (.keyWait MAX_RESPONSE_DURATION) ∧
    MAX_RESPONSE_DURATION ≠ MAX_RESPONSE_DURATION - TARGET_DISPLAY_DURATION ∧
    (responseOutcome envLate).1 = some LEFT_RESPONSE_KEY ∧
    reportedRT (responseOutcome envLate).2 = some 1800 ∧
    MAX_RESPONSE_DURATION < 1800 := by
  refine ⟨by decide, ?_, by decide, ?_, ?_⟩
  · norm_num [MAX_RESPONSE_DURATION, TARGET_DISPLAY_DURATION]
  · have h1 : responseOutcome envLate = (some LEFT_RESPONSE_KEY, some 1600) :=
      by decide
    rw [h1]
    norm_num [reportedRT, TARGET_DISPLAY_DURATION]
  · norm_num [MAX_RESPONSE_DURATION]

/-- C2 amended: the bounded input wait after the target phase is issued with
the full `MAX_RESPONSE_DURATION`, not the remaining budget, so key presses
are accepted for up to `TARGET_DISPLAY_DURATION + MAX_RESPONSE_DURATION`
measured from target onset. -/
theorem c2_response_window_amended (trial : TrialSpec) (env : Env)
    (prev : Option Pos) (row : List Cell) (p : Option Pos)
    (h : (runTrial trial env prev).2 = .ok (row, p)) :
    Event.keyWait MAX_RESPONSE_DURATION ∈ (runTrial trial env prev).1 ∧
    ∀ k : Nat, ∀ t : ℚ, env.press = some (k, t) →
      t < MAX_RESPONSE_DURATION →
      reportedRT (responseOutcome env).2 =
        some (t + TARGET_DISPLAY_DURATION) ∧
      t + TARGET_DISPLAY_DURATION <
        TARGET_DISPLAY_DURATION + MAX_RESPONSE_DURATION := by
  obtain ⟨pos, hpos, hrow, hp⟩ := (runTrial_ok_iff _ _ _ _ _).1 h
  constructor
  · rw [runTrial_trace _ _ _ _ hpos]
    simp [preEvents, postEvents]
  · intro k t hk ht
    refine ⟨?_, by linarith⟩
    unfold responseOutcome keyboardWait
    rw [hk]
    simp [ht, reportedRT]

/-- C2 amended witness: the theorem applied to the specimen trial with the
late press. -/
theorem c2_response_window_amended_witness :
    Event.keyWait MAX_RESPONSE_DURATION ∈ (runTrial trialA envLate none).1 ∧
    ∀ k : Nat, ∀ t : ℚ, envLate.press = some (k, t) →
      t < MAX_RESPONSE_DURATION →
      reportedRT (responseOutcome envLate).2 =
        some (t + TARGET_DISPLAY_DURATION) ∧
      t + TARGET_DISPLAY_DURATION <
        TARGET_DISPLAY_DURATION + MAX_RESPONSE_DURATION :=
  c2_response_window_amended trialA envLate none
    (resultRow trialA envLate) (some .up) rfl

/-- C3 counterexample: key code 97 is not a recognized response key, yet its
press terminates the input wait, is recorded as the trial's response key with
a reaction time, and the persisted row differs from the timeout row of the
same trial. -/
theorem c3_unrecognized_key_cex :
    97 ≠ LEFT_RESPONSE_KEY ∧ 97 ≠ RIGHT_RESPONSE_KEY ∧
    (responseOutcome envOdd).1 = some 97 ∧
    (runTrial trialA envOdd none).2 =
      .ok (listTrial trialA ++
        [.keyCell (some 97), .rtCell (reportedRT (some 500))], some .up) ∧
    resultRow trialA envOdd ≠ resultRow trialA ⟨0, none⟩ :=
  ⟨by decide, by decide, by decide, rfl, by decide⟩

/-- C3 amended: any key press before the deadline — recognized or not —
terminates the response window and is recorded as the response key together
with its adjusted reaction time; an unrecognized key yields negative
feedback, but its record is not that of a timeout. -/
theorem c3_any_key_recorded_amended (trial : TrialSpec) (env : Env)
    (prev : Option Pos) (row : List Cell) (p : Option Pos) (k : Nat) (t : ℚ)
    (h : (runTrial trial env prev).2 = .ok (row, p))
    (hk : env.press = some (k, t)) (ht : t < MAX_RESPONSE_DURATION) :
    row = listTrial trial ++
      [.keyCell (some k), .rtCell (some (t + TARGET_DISPLAY_DURATION))] ∧
    (k ≠ LEFT_RESPONSE_KEY → k ≠ RIGHT_RESPONSE_KEY →
      feedbackColor (responseOutcome env).1 trial.arrow_direction
        = .negative) := by
  obtain ⟨pos, hpos, hrow, hp⟩ := (runTrial_ok_iff _ _ _ _ _).1 h
  have hro : responseOutcome env = (some k, some t) := by
    unfold responseOutcome keyboardWait
    rw [hk]
    simp [ht]
  subst hrow
  constructor
  · simp [resultRow, hro, reportedRT]
  · intro h1 h2
    rw [hro]
    simp [feedbackColor, h1, h2]

/-- C3 amended witness: the theorem applied to the specimen trial with the
unrecognized key 97 pressed at 500 ms. -/
theorem c3_any_key_recorded_amended_witness :
    resultRow trialA envOdd = listTrial trialA ++
      [.keyCell (some 97),
       .rtCell (some ((500 : ℚ) + TARGET_DISPLAY_DURATION))] ∧
    (97 ≠ LEFT_RESPONSE_KEY → 97 ≠ RIGHT_RESPONSE_KEY →
      feedbackColor (responseOutcome envOdd).1 trialA.arrow_direction
        = .negative) :=
  c3_any_key_recorded_amended trialA envOdd none (resultRow trialA envOdd)
    (some .up) 97 500 rfl rfl (by decide)

/-- C4 counterexample: a trial with the malformed `target_position`
`"middle"` does not fail at boundary validation with a `ConfigurationError`:
the baseline, cue and gap phases (six timeline events) run first and then
line 195 raises a `NameError`; and a trial with the malformed
`arrow_direction` `"sideways"` raises nothing at all, completing with a
persisted row. -/
theorem c4_no_boundary_validation_cex :
    (runTrial trialBadPos ⟨0, none⟩ none).2 =
      .error "NameError: target_pos is not defined" ∧
    (runTrial trialBadPos ⟨0, none⟩ none).1.length = 6 ∧
    (runTrial trialBadDir ⟨0, none⟩ none).2 =
      .ok (resultRow trialBadDir ⟨0, none⟩, some .up) :=
  ⟨rfl, by decide, rfl⟩

/-- C4 amended: the code has no boundary validation and no
`ConfigurationError`.  A trial whose `target_position` is `"up"` or `"down"`
never raises, whatever its `arrow_direction` (malformed directions silently
select a right-pointing target).  A trial with any other `target_position`
raises a `NameError` mid-timeline — after the baseline, cue and gap phases —
when no earlier trial set the position variable, and silently reuses the
previous trial's position otherwise. -/
theorem c4_validation_amended (trial : TrialSpec) (env : Env)
    (prev : Option Pos) :
    (trial.target_position = "up" ∨ trial.target_position = "down" →
      ∃ pos, (runTrial trial env prev).2 =
        .ok (resultRow trial env, some pos)) ∧
    (trial.target_position ≠ "up" → trial.target_position ≠ "down" →
      (prev = none →
        (runTrial trial env prev).2 =
          .error "NameError: target_pos is not defined" ∧
        (runTrial trial env prev).1 = preEvents trial env) ∧
      ∀ q : Pos, prev = some q →
        (runTrial trial env prev).2 =
          .ok (resultRow trial env, some q)) := by
  constructor
  · rintro (hup | hdown)
    · exact ⟨.up, by simp [runTrial, selectTargetPos, hup]⟩
    · refine ⟨.down, ?_⟩
      have hsel : selectTargetPos trial.target_position prev = some .down :=
        by simp [selectTargetPos, hdown]
      simp [runTrial, hsel]
  · intro h1 h2
    have hsel : selectTargetPos trial.target_position prev = prev := by
      simp [selectTargetPos, h1, h2]
    refine ⟨?_, ?_⟩
    · rintro rfl
      exact ⟨by simp [runTrial, hsel], by simp [runTrial, hsel]⟩
    · rintro q rfl
      simp [runTrial, hsel]

/-- C4 amended witness: the theorem applied to the malformed-position trial
on a first trial. -/
theorem c4_validation_amended_witness :
    (runTrial trialBadPos ⟨0, none⟩ none).2 =
      .error "NameError: target_pos is not defined" ∧
    (runTrial trialBadPos ⟨0, none⟩ none).1 =
      preEvents trialBadPos ⟨0, none⟩ :=
  ((c4_validation_amended trialBadPos ⟨0, none⟩ none).2
    (by decide) (by decide)).1 rfl

/-- C5 counterexample: for a completed specimen trial the `exp.data.add`
event sits at index 11 of the 14-event trace, before the feedback frame at
index 12 and the feedback wait at index 13 — the record is persisted before
the feedback phase of the timeline runs. -/
theorem c5_record_before_feedback_cex :
    (runTrial trialA ⟨0, none⟩ none).1[11]? =
      some (.dataAdd (resultRow trialA ⟨0, none⟩)) ∧
    (runTrial trialA ⟨0, none⟩ none).1[12]? =
      some (.frame (displayFrame .negative false false)) ∧
    (runTrial trialA ⟨0, none⟩ none).1.length = 14 :=
  ⟨rfl, by decide, by decide⟩

/-- C5 amended: the result row is persisted after the response window closes
and immediately before the feedback phase — not after the full timeline —
and a trial that fails before the response window persists nothing. -/
theorem c5_record_emission_amended (trial : TrialSpec) (env : Env)
    (prev : Option Pos) :
    (∀ row : List Cell, ∀ p : Option Pos,
      (runTrial trial env prev).2 = .ok (row, p) →
      ∃ pre : List Event, ∃ c : Color,
        (runTrial trial env prev).1 =
          pre ++ [.dataAdd row, .frame (displayFrame c false false),
                  .wait 400]) ∧
    (∀ s : String, (runTrial trial env prev).2 = .error s →
      ∀ r : List Cell, Event.dataAdd r ∉ (runTrial trial env prev).1) := by
  constructor
  · intro row p h
    obtain ⟨pos, hpos, hrow, hp⟩ := (runTrial_ok_iff _ _ _ _ _).1 h
    subst hrow
    refine ⟨preEvents trial env ++ (postEvents trial env pos).take 5,
      feedbackColor (responseOutcome env).1 trial.arrow_direction, ?_⟩
    rw [runTrial_trace _ _ _ _ hpos]
    simp [postEvents, preEvents]
  · intro s hs r
    cases hpos : selectTargetPos trial.target_position prev with
    | none =>
        rw [runTrial_trace_err _ _ _ hpos]
        simp [preEvents]
    | some pos =>
        exfalso
        simp [runTrial, hpos] at hs

/-- C5 amended witness: the theorem applied to the completed specimen trial. -/
theorem c5_record_emission_amended_witness :
    ∃ pre : List Event, ∃ c : Color,
      (runTrial trialA ⟨0, none⟩ none).1 =
        pre ++ [.dataAdd (resultRow trialA ⟨0, none⟩),
                .frame (displayFrame c false false), .wait 400] :=
  (c5_record_emission_amended trialA ⟨0, none⟩ none).1
    (resultRow trialA ⟨0, none⟩) (some .up) rfl

/-- C9 counterexample: for the trial with `cue_up = True`,
`cue_down = False`, direction left, congruent flankers, target up, and no
response, the committed frame sequence is not the six-state sequence the
claim lists: lines 196-197 commit an extra plain fixation frame immediately
before the frame carrying the target. -/
theorem c9_phase_sequence_cex :
    framesOf (runTrial ⟨true, false, "left", "cong", "up"⟩ ⟨0, none⟩
        none).1 ≠
      [displayFrame .neutral false false,
       displayFrame .neutral true false,
       displayFrame .neutral false false,
       ⟨.neutral, false, false, some (.congLeft, .up)⟩,
       displayFrame .neutral false false,
       displayFrame .negative false false] := by decide

/-- C9 amended: for every trial with `cue_up = True` and `cue_down = False`
whose target position resolves, the committed frame sequence is exactly the
seven states fixation, fixation plus top cue, fixation, fixation (committed
by line 196 just before the target is layered on), fixation plus target,
fixation, and the feedback-coloured fixation, in that order with no other
frames in between. -/
theorem c9_phase_sequence_amended (trial : TrialSpec) (env : Env)
    (prev : Option Pos) (pos : Pos)
    (hc : trial.cue_up = true) (hd : trial.cue_down = false)
    (hpos : selectTargetPos trial.target_position prev = some pos) :
    framesOf (runTrial trial env prev).1 =
      [displayFrame .neutral false false,
       displayFrame .neutral true false,
       displayFrame .neutral false false,
       displayFrame .neutral false false,
       ⟨.neutral, false, false,
        some (selectTarget trial.arrow_direction trial.flanker_congruency,
              pos)⟩,
       displayFrame .neutral false false,
       displayFrame
         (feedbackColor (responseOutcome env).1 trial.arrow_direction)
         false false] := by
  rw [runTrial_trace _ _ _ _ hpos]
  simp [framesOf, preEvents, postEvents, hc, hd]

/-- C9 amended witness: the theorem applied to the cue-up specimen trial. -/
theorem c9_phase_sequence_amended_witness :
    framesOf (runTrial ⟨true, false, "left", "cong", "up"⟩ ⟨0, none⟩
        none).1 =
      [displayFrame .neutral false false,
       displayFrame .neutral true false,
       displayFrame .neutral false false,
       displayFrame .neutral false false,
       ⟨.neutral, false, false, some (.congLeft, .up)⟩,
       displayFrame .neutral false false,
       displayFrame
         (feedbackColor (responseOutcome ⟨0, none⟩).1 "left")
         false false] :=
  c9_phase_sequence_amended ⟨true, false, "left", "cong", "up"⟩ ⟨0, none⟩
    none .up rfl rfl rfl

end AntV
